import Mathlib

set_option maxHeartbeats 1000000

/-! Verification of the tutoring conversation orchestration core:
the conversation record, the turn executor `interact_with_student`
(src/app/api/v1/endpoints/tutoring.py), the assessment caller
`infer_understanding` (src/app/agents/understanding_agent.py), the in-memory
conversation store, and the teaching-style selection
(src/app/prompts/tutoring.py). -/

/-- One transcript entry: a Python dict with a "role" and a "content" key. -/
structure Msg where
  role : String
  content : String
  deriving DecidableEq

/-- Predicate for a student turn: msg.get("role") == "student". -/
def isStudentB (m : Msg) : Bool := m.role == "student"

/-- Predicate for a substantial teaching turn: a tutor message whose content is
longer than 100 characters (understanding_agent.py line 56). -/
def isSubstantialTutor (m : Msg) : Bool := m.role == "tutor" && 100 < m.content.length

/-- Predicate for the roles the assessment filter keeps (tutor or student). -/
def keepRole (m : Msg) : Bool := m.role == "tutor" || m.role == "student"

/-- Number of student turns in a list of messages. -/
def studCount (l : List Msg) : Nat := (l.filter isStudentB).length

/-- Number of substantial tutor turns in a list of messages. -/
def teachCount (l : List Msg) : Nat := (l.filter isSubstantialTutor).length

/-- Python value inside the parsed JSON object returned by the oracle chain.
Python treats bool as a subtype of int (isinstance(True, int) holds and
True == 1), which the helpers below reproduce. Python floats are modelled as
rationals; the code only ever compares them, never does float arithmetic. -/
inductive JsonVal
  | null
  | int (n : Int)
  | bool (b : Bool)
  | num (q : ℚ)
  | str (s : String)
  deriving DecidableEq

/-- Result of Python isinstance(v, int): true for ints and for bools. -/
def JsonVal.isPyInt : JsonVal → Bool
  | .int _ => true
  | .bool _ => true
  | _ => false

/-- Result of Python isinstance(v, (int, float)): ints, bools and floats. -/
def JsonVal.isPyNumber : JsonVal → Bool
  | .int _ => true
  | .bool _ => true
  | .num _ => true
  | _ => false

/-- Integer value of a Python int-like value (True counts as 1, False as 0). -/
def JsonVal.asInt : JsonVal → Int
  | .int n => n
  | .bool b => if b then 1 else 0
  | _ => 0

/-- Numeric value of a Python number as a rational. -/
def JsonVal.asRat : JsonVal → ℚ
  | .int n => (n : ℚ)
  | .bool b => if b then 1 else 0
  | .num q => q
  | _ => 0

/-- Python truthiness of a JSON value. -/
def JsonVal.truthy : JsonVal → Bool
  | .null => false
  | .int n => n != 0
  | .bool b => b
  | .num q => q != 0
  | .str s => s != ""

/-- TutoringState (src/app/graph/state.py) restricted to the fields the
orchestration logic reads or writes. conversation_id, student_profile and
topic_info are omitted: the code only interpolates them into prompt text.
understanding_evidence is stored unvalidated by the code, so it is modelled as
a JSON value, with .null playing Python None (its initial value). -/
structure TState where
  student_id : String
  topic_id : String
  messages : List Msg
  understanding_level : Option Int
  understanding_confidence : Option ℚ
  understanding_evidence : JsonVal
  understanding_level_locked : Bool
  turn_count : Nat
  max_turns : Nat
  tutor_message : Option String
  student_response : Option String
  conversation_ended : Bool
  deriving DecidableEq

/-- Filtering loop of infer_understanding (understanding_agent.py lines 46-64):
walks the transcript accumulating tutor_teaching_count and
student_response_count, keeps tutor and student messages (other roles are
dropped), and breaks right after appending a student message once
student_response_count has reached 3 or tutor_teaching_count has reached 2.
Returns the filtered messages and the final values of both counters. -/
def filterAcc : List Msg → Nat → Nat → List Msg × Nat × Nat
  | [], teach, stud => ([], teach, stud)
  | m :: rest, teach, stud =>
    if m.role == "tutor" then
      let teach' := if 100 < m.content.length then teach + 1 else teach
      let r := filterAcc rest teach' stud
      (m :: r.1, r.2)
    else if m.role == "student" then
      if 3 ≤ stud + 1 ∨ 2 ≤ teach then ([m], teach, stud + 1)
      else
        let r := filterAcc rest teach (stud + 1)
        (m :: r.1, r.2)
    else filterAcc rest teach stud

/-- Messages handed to the oracle: the conversation_history string is built
from exactly this list (understanding_agent.py lines 67-70). -/
def filteredMessages (msgs : List Msg) : List Msg := (filterAcc msgs 0 0).1

/-- Parsed JSON object returned by the oracle chain, after the dict.get calls
of understanding_agent.py lines 91-94: level and confidence are
result.get("level") and result.get("confidence"), with a missing key collapsed
to .null since Python returns None for it; evidence is
result.get("evidence", ""), so a missing key stands as .str ""; should_lock is
result.get("should_lock", False), so a missing key stands as .bool false. -/
structure OracleResp where
  level : JsonVal
  confidence : JsonVal
  evidence : JsonVal
  should_lock : JsonVal
  deriving DecidableEq

/-- Outcome of chain.invoke: it either raised or produced a parsed response. -/
inductive OracleOutcome
  | failure
  | success (resp : OracleResp)
  deriving DecidableEq

/-- Dict returned by infer_understanding. -/
structure UnderUpdate where
  understanding_level : Option Int
  understanding_confidence : Option ℚ
  understanding_evidence : JsonVal
  should_lock : Bool
  deriving DecidableEq

/-- Level validation at understanding_agent.py line 97: isinstance(level, int)
and not (level < 1 or level > 5); Python bools pass isinstance and compare as
0 and 1. -/
def levelValid (v : JsonVal) : Bool :=
  v.isPyInt && decide (1 ≤ v.asInt) && decide (v.asInt ≤ 5)

/-- Confidence validation at understanding_agent.py line 105: not None,
isinstance((int, float)), and not (confidence < 0.0 or confidence > 1.0). -/
def confValid (v : JsonVal) : Bool :=
  !(v == .null) && v.isPyNumber && decide (0 ≤ v.asRat) && decide (v.asRat ≤ 1)

/-- Fallback dict built in the except branch of infer_understanding (lines
123-142). previous_confidence is state.get("understanding_confidence", 0.5),
which is the stored value whenever the key is present (always, for records
built by start_tutoring), so the 0.3 default applies when that value is None. -/
def fallbackUpdate (prevLevel : Option Int) (prevConf : Option ℚ) (prevEvid : JsonVal)
    (studCnt : Nat) : UnderUpdate :=
  { understanding_level := some (prevLevel.getD 3),
    understanding_confidence := some (prevConf.getD (3/10)),
    understanding_evidence :=
      if prevEvid.truthy then prevEvid
      else .str "Unable to assess - using previous/default level",
    should_lock := prevLevel.isSome && decide (1 ≤ studCnt) }

/-- Body of the try block after chain.invoke succeeded (understanding_agent.py
lines 91-122). The .error case is the TypeError raised by evaluating
confidence >= 0.7 when the validated confidence is None (possible when the
response's should_lock is not a bool and the confidence fallback produced a
None previous value); that exception lands in the same except branch as a
failed chain.invoke. -/
def tryUpdate (resp : OracleResp) (prevLevel : Option Int) (prevConf : Option ℚ)
    (prevEvid : JsonVal) (studCnt teachCnt : Nat) : Except Unit UnderUpdate :=
  let level : Int := if levelValid resp.level then resp.level.asInt else prevLevel.getD 3
  let conf : Option ℚ := if confValid resp.confidence then some resp.confidence.asRat else prevConf
  let evid : JsonVal := if resp.evidence.truthy then resp.evidence else prevEvid
  match resp.should_lock with
  | .bool b => .ok ⟨some level, conf, evid, b⟩
  | _ =>
    match conf with
    | none => .error ()
    | some c =>
      .ok ⟨some level, conf, evid,
        decide ((7 : ℚ)/10 ≤ c) && decide (1 ≤ studCnt) && decide (teachCnt < 2)⟩

/-- infer_understanding (src/app/agents/understanding_agent.py lines 17-142).
The oracle argument is the outcome of chain.invoke; the second component of
the result says whether the chain was invoked at all. Every exception of the
chain is handled inside the function, so it is total: an oracle failure is
never propagated to the caller. -/
def infer_understanding (oracle : OracleOutcome) (s : TState) : UnderUpdate × Bool :=
  if studCount s.messages = 0 then
    (⟨s.understanding_level, s.understanding_confidence, s.understanding_evidence, false⟩, false)
  else
    let fa := filterAcc s.messages 0 0
    let teachCnt := fa.2.1
    let studCnt := fa.2.2
    match oracle with
    | .failure =>
      (fallbackUpdate s.understanding_level s.understanding_confidence
        s.understanding_evidence studCnt, true)
    | .success resp =>
      match tryUpdate resp s.understanding_level s.understanding_confidence
          s.understanding_evidence studCnt teachCnt with
      | .ok u => (u, true)
      | .error _ =>
        (fallbackUpdate s.understanding_level s.understanding_confidence
          s.understanding_evidence studCnt, true)

/-- Turn-level errors of interact_with_student: conversationEnded is the
HTTP 400 rejection with detail "Conversation has ended", turnLimitReached the
HTTP 400 rejection with detail "Maximum turns reached", transportFailure the
HTTP 500 raised when the api_client.interact exchange call fails. -/
inductive TErr
  | conversationEnded
  | turnLimitReached
  | transportFailure
  deriving DecidableEq

/-- Fields of the exchange response used by the turn executor. -/
structure ExchangeResp where
  student_response : String
  turn_number : Nat
  is_complete : Bool
  deriving DecidableEq

/-- Fields of the InteractResponse the endpoint returns (interaction_id and
conversation_id are opaque strings echoed back and are omitted). -/
structure InteractOut where
  student_response : String
  turn_number : Nat
  is_complete : Bool
  deriving DecidableEq

/-- Either a raised turn-level error or a successful InteractResponse. -/
inductive TurnOut
  | err (e : TErr)
  | ok (o : InteractOut)
  deriving DecidableEq

/-- Result of one invocation of the turn executor. state is the conversation
record as the store holds it afterwards: Python mutates the stored dict in
place, so mutations made before a raised error remain visible.
oracleCalled says whether the assessment chain was invoked during the turn. -/
structure TurnResult where
  state : TState
  oracleCalled : Bool
  out : TurnOut
  deriving DecidableEq

/-- interact_with_student (src/app/api/v1/endpoints/tutoring.py lines 147-229)
for a conversation state already fetched from the store. reqMsg is
request.tutor_message; genMsg is the message generate_tutoring would produce
(that call never raises: it has an internal fallback, tutor_agent.py lines
60-65); exch is the outcome of the api_client.interact call, with none meaning
the call raised; oracle is the outcome of the assessment chain. The
run_tutoring_conversation loop body (lines 342-408) updates the record by the
same steps, so the record-level claims proved about this function cover both.
Logging (logger.log_conversation) does not touch the record and is omitted. -/
def interact_with_student (s : TState) (reqMsg : Option String) (genMsg : String)
    (exch : Option ExchangeResp) (oracle : OracleOutcome) : TurnResult :=
  if s.conversation_ended then ⟨s, false, .err .conversationEnded⟩
  else if s.max_turns ≤ s.turn_count then ⟨s, false, .err .turnLimitReached⟩
  else
    let auto : Bool := match reqMsg with | none => true | some m => m == ""
    let s1 := if auto then { s with tutor_message := some genMsg } else s
    let tmsg := if auto then genMsg else reqMsg.getD ""
    match exch with
    | none => ⟨s1, false, .err .transportFailure⟩
    | some ex =>
      let msgs := s1.messages ++ [⟨"tutor", tmsg⟩, ⟨"student", ex.student_response⟩]
      let s2 : TState := { s1 with
        messages := msgs,
        student_response := some ex.student_response,
        turn_count := ex.turn_number,
        conversation_ended := ex.is_complete,
        tutor_message := some tmsg }
      let out : InteractOut := ⟨ex.student_response, ex.turn_number, ex.is_complete⟩
      if s2.understanding_level_locked = false then
        if 0 < studCount s2.messages then
          let iu := infer_understanding oracle s2
          let s3 : TState := { s2 with
            understanding_level := iu.1.understanding_level,
            understanding_confidence := iu.1.understanding_confidence,
            understanding_evidence := iu.1.understanding_evidence,
            understanding_level_locked :=
              if iu.1.should_lock then true else s2.understanding_level_locked }
          ⟨s3, iu.2, .ok out⟩
        else ⟨s2, false, .ok out⟩
      else ⟨s2, false, .ok out⟩

/-- In-memory conversation store: the module-level conversation_states dict of
tutoring.py line 81, keyed by the conversation id string. -/
abbrev Store := List (String × TState)

/-- Dict lookup: conversation_states.get(conversation_id); entries carry
unique keys, earlier entries win. -/
def storeGet : Store → String → Option TState
  | [], _ => none
  | kv :: rest, k => if kv.1 == k then some kv.2 else storeGet rest k

/-- Dict assignment: conversation_states[k] = v, replacing any present entry. -/
def storeSet : Store → String → TState → Store
  | [], k, v => [(k, v)]
  | kv :: rest, k, v => if kv.1 == k then (k, v) :: rest else kv :: storeSet rest k v

/-- Initial TutoringState built by start_tutoring (tutoring.py lines 107-131):
empty transcript, understanding fields None, lock false, turn_count 0,
conversation not ended. -/
def mkInitialState (student_id topic_id : String) (max_turns : Nat) : TState :=
  { student_id := student_id,
    topic_id := topic_id,
    messages := [],
    understanding_level := none,
    understanding_confidence := none,
    understanding_evidence := .null,
    understanding_level_locked := false,
    turn_count := 0,
    max_turns := max_turns,
    tutor_message := none,
    student_response := none,
    conversation_ended := false }

/-- Storage step of start_tutoring (tutoring.py line 134): the fresh record is
written under conversation_id unconditionally. The function contains no check
that the id is already present; the external lookups that precede this step
cannot observe the store. -/
def start_tutoring (store : Store) (conversation_id student_id topic_id : String)
    (max_turns : Nat) : Store :=
  storeSet store conversation_id (mkInitialState student_id topic_id max_turns)

/-- Teaching style text for level 1 (prompts/tutoring.py lines 8-15). -/
def teachingStyleLevel1 : String :=
  "Teaching Style for Level 1 (Struggling):\n- Start with fundamentals and basics\n- Use simple, clear language\n- Break concepts into very small steps\n- Provide lots of examples and analogies\n- Use encouraging, supportive tone\n- Check for understanding frequently\n- Avoid advanced terminology"

/-- Teaching style text for level 2 (prompts/tutoring.py lines 16-22). -/
def teachingStyleLevel2 : String :=
  "Teaching Style for Level 2 (Below Grade):\n- Review foundational concepts\n- Use concrete examples\n- Provide step-by-step guidance\n- Offer extra practice opportunities\n- Use supportive but clear feedback\n- Build confidence gradually"

/-- Teaching style text for level 3 (prompts/tutoring.py lines 23-29). -/
def teachingStyleLevel3 : String :=
  "Teaching Style for Level 3 (At Grade):\n- Present core concepts clearly\n- Use appropriate examples\n- Encourage independent thinking\n- Provide moderate challenge\n- Use balanced feedback\n- Connect to prior knowledge"

/-- Teaching style text for level 4 (prompts/tutoring.py lines 30-36). -/
def teachingStyleLevel4 : String :=
  "Teaching Style for Level 4 (Above Grade):\n- Introduce more complex concepts\n- Encourage deeper exploration\n- Use more abstract examples\n- Challenge with advanced problems\n- Foster critical thinking\n- Connect to broader applications"

/-- Teaching style text for level 5 (prompts/tutoring.py lines 37-43). -/
def teachingStyleLevel5 : String :=
  "Teaching Style for Level 5 (Advanced):\n- Present advanced material\n- Encourage independent exploration\n- Use sophisticated examples\n- Challenge with complex problems\n- Foster creative problem-solving\n- Connect to real-world applications"

/-- TEACHING_STYLE_GUIDANCE dict (prompts/tutoring.py lines 7-44) as a lookup
on the Python value of understanding_level; none plays Python None, which is
not a key of the dict. A stored Python True would hash and compare equal to
the key 1; the embedding stores bools already coerced to 0 and 1. -/
def TEACHING_STYLE_GUIDANCE (level : Option Int) : Option String :=
  if level = some 1 then some teachingStyleLevel1
  else if level = some 2 then some teachingStyleLevel2
  else if level = some 3 then some teachingStyleLevel3
  else if level = some 4 then some teachingStyleLevel4
  else if level = some 5 then some teachingStyleLevel5
  else none

/-- get_teaching_style_guidance (prompts/tutoring.py lines 83-85):
TEACHING_STYLE_GUIDANCE.get(level, TEACHING_STYLE_GUIDANCE[3]). The function
is total by construction: generate_tutoring (tutor_agent.py line 32) calls it
with state.get("understanding_level", 3), which is the stored value whenever
the key is present, so any None or out-of-range level reaches this default. -/
def get_teaching_style_guidance (level : Option Int) : String :=
  (TEACHING_STYLE_GUIDANCE level).getD teachingStyleLevel3

/-- Index (0-based) of the nth (1-based) message satisfying p, if it exists. -/
def idxOfNth (p : Msg → Bool) : Nat → List Msg → Option Nat
  | _, [] => none
  | n, m :: rest =>
    if p m then
      if n ≤ 1 then some 0
      else (idxOfNth p (n - 1) rest).map (· + 1)
    else (idxOfNth p n rest).map (· + 1)

/-- Modelled from the claim wording, for comparison with the implementation:
the turns up to and including whichever comes first, the 3rd student turn or
the 2nd tutor turn whose message exceeds 100 characters, and no later turn. -/
def claimEarlyPortion (msgs : List Msg) : List Msg :=
  match idxOfNth isStudentB 3 msgs, idxOfNth isSubstantialTutor 2 msgs with
  | some i, some j => msgs.take (min i j + 1)
  | some i, none => msgs.take (i + 1)
  | none, some j => msgs.take (j + 1)
  | none, none => msgs

/-- Truncation as the code actually performs it, phrased over prefixes rather
than threaded counters: walk the transcript keeping tutor and student turns,
and stop right after the first student turn at which at least 3 student turns
have been seen, or which is preceded by at least 2 substantial tutor turns;
seen is the already-processed prefix. -/
def specEarlyGo (seen : List Msg) : List Msg → List Msg
  | [] => []
  | m :: rest =>
    if isStudentB m then
      if 3 ≤ studCount (seen ++ [m]) ∨ 2 ≤ teachCount seen then [m]
      else m :: specEarlyGo (seen ++ [m]) rest
    else if m.role == "tutor" then m :: specEarlyGo (seen ++ [m]) rest
    else specEarlyGo (seen ++ [m]) rest

/-- Portion of the transcript handed to the oracle, in spec form. -/
def specEarlyPortion (msgs : List Msg) : List Msg := specEarlyGo [] msgs

/-- Transcript containing a 2nd substantial tutor turn (index 2) before any
3rd student turn, with further turns after it. -/
def exC4 : List Msg :=
  [⟨"tutor", String.mk (List.replicate 101 'a')⟩, ⟨"student", "ok"⟩,
   ⟨"tutor", String.mk (List.replicate 101 'a')⟩, ⟨"tutor", "hm"⟩, ⟨"student", "yes"⟩]

theorem studCount_append_one (seen : List Msg) (m : Msg) :
    studCount (seen ++ [m]) = studCount seen + (if isStudentB m then 1 else 0) := by
  cases h : isStudentB m <;>
    simp [studCount, List.filter_append, List.filter_cons, h]

theorem teachCount_append_one (seen : List Msg) (m : Msg) :
    teachCount (seen ++ [m]) = teachCount seen + (if isSubstantialTutor m then 1 else 0) := by
  cases h : isSubstantialTutor m <;>
    simp [teachCount, List.filter_append, List.filter_cons, h]

theorem filterAcc_specEarlyGo : ∀ msgs seen : List Msg,
    (filterAcc msgs (teachCount seen) (studCount seen)).1 = specEarlyGo seen msgs := by
  intro msgs
  induction msgs with
  | nil => intro seen; rfl
  | cons m rest ih =>
    intro seen
    by_cases ht : m.role = "tutor"
    · have hstu : isStudentB m = false := by simp [isStudentB, ht]
      have hsub : isSubstantialTutor m = (100 < m.content.length : Bool) := by
        simp [isSubstantialTutor, ht]
      have hstuC : studCount (seen ++ [m]) = studCount seen := by
        simp [studCount_append_one, hstu]
      have hteaC : teachCount (seen ++ [m]) =
          if 100 < m.content.length then teachCount seen + 1 else teachCount seen := by
        rw [teachCount_append_one, hsub]
        by_cases h100 : 100 < m.content.length <;> simp [h100]
      rw [show filterAcc (m :: rest) (teachCount seen) (studCount seen)
            = (m :: (filterAcc rest (if 100 < m.content.length then teachCount seen + 1
                else teachCount seen) (studCount seen)).1,
               (filterAcc rest (if 100 < m.content.length then teachCount seen + 1
                else teachCount seen) (studCount seen)).2) by
          simp [filterAcc, ht]]
      rw [show specEarlyGo seen (m :: rest) = m :: specEarlyGo (seen ++ [m]) rest by
          simp [specEarlyGo, hstu, ht]]
      have := ih (seen ++ [m])
      rw [hstuC, hteaC] at this
      simp [this]
    · by_cases hs : m.role = "student"
      · have hstu : isStudentB m = true := by simp [isStudentB, hs]
        have hsub : isSubstantialTutor m = false := by simp [isSubstantialTutor, hs]
        have hstuC : studCount (seen ++ [m]) = studCount seen + 1 := by
          simp [studCount_append_one, hstu]
        have hteaC : teachCount (seen ++ [m]) = teachCount seen := by
          simp [teachCount_append_one, hsub]
        by_cases hbrk : 2 ≤ studCount seen ∨ 2 ≤ teachCount seen
        · rw [show filterAcc (m :: rest) (teachCount seen) (studCount seen)
                = ([m], teachCount seen, studCount seen + 1) by
              simp [filterAcc, ht, hs, hbrk]]
          rw [show specEarlyGo seen (m :: rest) = [m] by
              simp [specEarlyGo, hstu, hstuC, hbrk]]
        · rw [show filterAcc (m :: rest) (teachCount seen) (studCount seen)
                = (m :: (filterAcc rest (teachCount seen) (studCount seen + 1)).1,
                   (filterAcc rest (teachCount seen) (studCount seen + 1)).2) by
              simp [filterAcc, ht, hs, hbrk]]
          rw [show specEarlyGo seen (m :: rest) = m :: specEarlyGo (seen ++ [m]) rest by
              simp [specEarlyGo, hstu, hstuC, hbrk]]
          have := ih (seen ++ [m])
          rw [hstuC, hteaC] at this
          simp [this]
      · have hstu : isStudentB m = false := by simp [isStudentB, hs]
        have hsub : isSubstantialTutor m = false := by simp [isSubstantialTutor, ht]
        have hstuC : studCount (seen ++ [m]) = studCount seen := by
          simp [studCount_append_one, hstu]
        have hteaC : teachCount (seen ++ [m]) = teachCount seen := by
          simp [teachCount_append_one, hsub]
        rw [show filterAcc (m :: rest) (teachCount seen) (studCount seen)
              = filterAcc rest (teachCount seen) (studCount seen) by
            simp [filterAcc, ht, hs]]
        rw [show specEarlyGo seen (m :: rest) = specEarlyGo (seen ++ [m]) rest by
            simp [specEarlyGo, hstu, ht]]
        have := ih (seen ++ [m])
        rw [hstuC, hteaC] at this
        exact this

/-- C4 (amended): the portion of the conversation handed to the Assessment
Oracle consists of the tutor and student turns up to and including the first
STUDENT turn at which at least 3 student turns have been seen, or which is
preceded by at least 2 substantial tutor turns (tutor messages longer than 100
characters); turns with any other role are dropped, and if no such student
turn exists the whole transcript is kept. A 2nd substantial tutor turn does
not by itself end the portion: the loop only breaks on student turns, so the
portion extends through the next student turn. -/
theorem c4_oracle_input_truncation (msgs : List Msg) :
    filteredMessages msgs = specEarlyPortion msgs :=
  filterAcc_specEarlyGo msgs []

/-- C4 (counterexample): on a transcript whose 2nd substantial tutor turn at
index 2 precedes any 3rd student turn, the claim as stated demands that the
oracle input stop at that tutor turn (the first three messages), but the
implementation hands the oracle all five messages, including two turns that
come after it. -/
theorem c4_counterexample :
    claimEarlyPortion exC4 = exC4.take 3 ∧
    filteredMessages exC4 = exC4 ∧
    filteredMessages exC4 ≠ claimEarlyPortion exC4 := by
  decide

/-- C1: once a conversation record has the lock flag set, an executed turn
leaves understanding_level, understanding_confidence and
understanding_evidence unchanged, never invokes the assessment chain, and
leaves the lock set: the lock is a one-way latch (no operation ever writes
false to it). The same update steps are executed by run_tutoring_conversation
(tutoring.py lines 375-384), so this covers both callers. -/
theorem c1_lock_is_latch (s : TState) (reqMsg : Option String) (genMsg : String)
    (exch : Option ExchangeResp) (oracle : OracleOutcome)
    (h : s.understanding_level_locked = true) :
    (interact_with_student s reqMsg genMsg exch oracle).state.understanding_level
        = s.understanding_level ∧
    (interact_with_student s reqMsg genMsg exch oracle).state.understanding_confidence
        = s.understanding_confidence ∧
    (interact_with_student s reqMsg genMsg exch oracle).state.understanding_evidence
        = s.understanding_evidence ∧
    (interact_with_student s reqMsg genMsg exch oracle).state.understanding_level_locked
        = true ∧
    (interact_with_student s reqMsg genMsg exch oracle).oracleCalled = false := by
  unfold interact_with_student
  by_cases h1 : s.conversation_ended
  · simp [h1, h]
  by_cases h2 : s.max_turns ≤ s.turn_count
  · simp [h1, h2, h]
  cases exch with
  | none =>
    cases reqMsg with
    | none => simp [h1, h2, h]
    | some m => by_cases hm : m == "" <;> simp [h1, h2, h, hm]
  | some ex =>
    cases reqMsg with
    | none => simp [h1, h2, h]
    | some m => by_cases hm : m == "" <;> simp [h1, h2, h, hm]

/-- Record with the understanding assessment locked, used as the C1 witness. -/
def lockedSt : TState :=
  { mkInitialState "student-7" "topic-7" 10 with
    messages := [⟨"tutor", "hi"⟩, ⟨"student", "hello"⟩],
    understanding_level := some 2,
    understanding_confidence := some (4/5),
    understanding_evidence := .str "early answers",
    understanding_level_locked := true,
    turn_count := 1 }

theorem c1_lock_is_latch_witness :
    lockedSt.understanding_level_locked = true ∧
    ((interact_with_student lockedSt none "next lesson"
        (some ⟨"sure", 2, false⟩) .failure).state.understanding_level
      = lockedSt.understanding_level ∧
    (interact_with_student lockedSt none "next lesson"
        (some ⟨"sure", 2, false⟩) .failure).state.understanding_confidence
      = lockedSt.understanding_confidence ∧
    (interact_with_student lockedSt none "next lesson"
        (some ⟨"sure", 2, false⟩) .failure).state.understanding_evidence
      = lockedSt.understanding_evidence ∧
    (interact_with_student lockedSt none "next lesson"
        (some ⟨"sure", 2, false⟩) .failure).state.understanding_level_locked = true ∧
    (interact_with_student lockedSt none "next lesson"
        (some ⟨"sure", 2, false⟩) .failure).oracleCalled = false) :=
  ⟨rfl, c1_lock_is_latch lockedSt none "next lesson" (some ⟨"sure", 2, false⟩) .failure rfl⟩

/-- C5: a turn invocation on an ended conversation is rejected with the
ConversationEnded error (HTTP 400, "Conversation has ended"), and one on a
record whose turn_count has reached max_turns is rejected with the
TurnLimitReached error (HTTP 400, "Maximum turns reached"); both checks run
before any step of the turn, the assessment chain is not invoked, and the
stored record is exactly the record before the invocation. -/
theorem c5_termination_preconditions (s : TState) (reqMsg : Option String)
    (genMsg : String) (exch : Option ExchangeResp) (oracle : OracleOutcome) :
    (s.conversation_ended = true →
      interact_with_student s reqMsg genMsg exch oracle
        = ⟨s, false, .err .conversationEnded⟩) ∧
    (s.conversation_ended = false → s.max_turns ≤ s.turn_count →
      interact_with_student s reqMsg genMsg exch oracle
        = ⟨s, false, .err .turnLimitReached⟩) := by
  constructor
  · intro h1
    simp [interact_with_student, h1]
  · intro h1 h2
    simp [interact_with_student, h1, h2]

/-- Ended conversation record used in the C5 witness. -/
def endedSt : TState :=
  { mkInitialState "student-5" "topic-5" 10 with conversation_ended := true, turn_count := 4 }

/-- Record at its turn limit used in the C5 witness. -/
def maxedSt : TState :=
  { mkInitialState "student-6" "topic-6" 3 with turn_count := 3 }

theorem c5_termination_preconditions_witness :
    (endedSt.conversation_ended = true ∧
      interact_with_student endedSt none "hi" none .failure
        = ⟨endedSt, false, .err .conversationEnded⟩) ∧
    (maxedSt.conversation_ended = false ∧ maxedSt.max_turns ≤ maxedSt.turn_count ∧
      interact_with_student maxedSt none "hi" none .failure
        = ⟨maxedSt, false, .err .turnLimitReached⟩) :=
  ⟨⟨rfl, (c5_termination_preconditions endedSt none "hi" none .failure).1 rfl⟩,
   ⟨rfl, by decide,
    (c5_termination_preconditions maxedSt none "hi" none .failure).2 rfl (by decide)⟩⟩

/-- Fresh conversation record used in the C2 counterexample. -/
def c2State : TState := mkInitialState "student-2" "topic-2" 10

/-- C2 (counterexample): on a fresh record with no explicit tutor message, a
failing exchange call leaves the stored record mutated: generate_tutoring ran
first and its message was written into tutor_message by state.update before
the exchange, and Python dict mutation is in place, so the claim that no field
of the record has been mutated is false. -/
theorem c2_counterexample :
    (interact_with_student c2State none "Generated greeting" none .failure).out
        = .err .transportFailure ∧
    (interact_with_student c2State none "Generated greeting" none .failure).state
        ≠ c2State := by
  decide

/-- C2 (amended): when the exchange call fails, the turn is surfaced as a
transport failure, the assessment chain is not invoked, and every field of the
stored record is left as it was — messages, turn_count, conversation_ended,
the three understanding fields, the lock and student_response — EXCEPT
tutor_message, which has already been overwritten with the freshly generated
message whenever the caller supplied no (or an empty) explicit message; with
an explicit non-empty message the record is fully unchanged, so a retry is
safe in either case. -/
theorem c2_exchange_failure_record (s : TState) (reqMsg : Option String)
    (genMsg : String) (oracle : OracleOutcome)
    (h1 : s.conversation_ended = false) (h2 : s.turn_count < s.max_turns) :
    (interact_with_student s reqMsg genMsg none oracle).out = .err .transportFailure ∧
    (interact_with_student s reqMsg genMsg none oracle).oracleCalled = false ∧
    (interact_with_student s reqMsg genMsg none oracle).state
      = (if reqMsg = none ∨ reqMsg = some "" then { s with tutor_message := some genMsg }
         else s) := by
  have h2' : ¬ s.max_turns ≤ s.turn_count := by omega
  cases reqMsg with
  | none => simp [interact_with_student, h1, h2']
  | some m =>
    by_cases hm : m == ""
    · have hm' : m = "" := by simpa using hm
      simp [interact_with_student, h1, h2', hm, hm']
    · have hm' : ¬ m = "" := by simpa using hm
      simp [interact_with_student, h1, h2', hm, hm']

theorem c2_exchange_failure_record_witness :
    c2State.conversation_ended = false ∧ c2State.turn_count < c2State.max_turns ∧
    ((interact_with_student c2State (some "Explicit message") "gen" none .failure).out
        = .err .transportFailure ∧
     (interact_with_student c2State (some "Explicit message") "gen" none .failure).oracleCalled
        = false ∧
     (interact_with_student c2State (some "Explicit message") "gen" none .failure).state
        = (if (some "Explicit message" : Option String) = none ∨
              (some "Explicit message" : Option String) = some ""
           then { c2State with tutor_message := some "gen" } else c2State)) :=
  ⟨rfl, by decide,
   c2_exchange_failure_record c2State (some "Explicit message") "gen" .failure rfl (by decide)⟩

/-- C3: with zero student turns in the transcript the oracle chain is never
invoked. First part: infer_understanding itself, on any state with no student
message, returns the unchanged previous estimate with should_lock false and
does not invoke the chain. Second part: whenever a turn execution did invoke
the chain, the transcript of the assessed record held at least one student
turn (the caller guards the call on exactly this, tutoring.py lines 193-195,
and assessment changes no messages). -/
theorem c3_zero_student_turns_no_oracle :
    (∀ (oracle : OracleOutcome) (s : TState), studCount s.messages = 0 →
      infer_understanding oracle s =
        (⟨s.understanding_level, s.understanding_confidence, s.understanding_evidence, false⟩,
         false)) ∧
    (∀ (s : TState) (reqMsg : Option String) (genMsg : String) (exch : Option ExchangeResp)
        (oracle : OracleOutcome),
      (interact_with_student s reqMsg genMsg exch oracle).oracleCalled = true →
      1 ≤ studCount (interact_with_student s reqMsg genMsg exch oracle).state.messages) := by
  constructor
  · intro oracle s h
    simp [infer_understanding, h]
  · intro s reqMsg genMsg exch oracle h
    by_cases h1 : s.conversation_ended
    · simp [interact_with_student, h1] at h
    by_cases h2 : s.max_turns ≤ s.turn_count
    · simp [interact_with_student, h1, h2] at h
    cases exch with
    | none =>
      cases reqMsg with
      | none => simp [interact_with_student, h1, h2] at h
      | some m => by_cases hm : m == "" <;> simp [interact_with_student, h1, h2, hm] at h
    | some ex =>
      cases reqMsg with
      | none =>
        by_cases hlk : s.understanding_level_locked
        · simp [interact_with_student, h1, h2, hlk] at h
        · by_cases hsc :
              0 < studCount (s.messages ++ [⟨"tutor", genMsg⟩, ⟨"student", ex.student_response⟩])
          · simp [interact_with_student, h1, h2, hlk, hsc]
            exact hsc
          · simp [interact_with_student, h1, h2, hlk, hsc] at h
      | some m =>
        by_cases hm : m == ""
        · by_cases hlk : s.understanding_level_locked
          · simp [interact_with_student, h1, h2, hm, hlk] at h
          · by_cases hsc :
                0 < studCount (s.messages ++ [⟨"tutor", genMsg⟩, ⟨"student", ex.student_response⟩])
            · simp [interact_with_student, h1, h2, hm, hlk, hsc]
              exact hsc
            · simp [interact_with_student, h1, h2, hm, hlk, hsc] at h
        · by_cases hlk : s.understanding_level_locked
          · simp [interact_with_student, h1, h2, hm, hlk] at h
          · by_cases hsc :
                0 < studCount (s.messages ++ [⟨"tutor", m⟩, ⟨"student", ex.student_response⟩])
            · simp [interact_with_student, h1, h2, hm, hlk, hsc]
              exact hsc
            · simp [interact_with_student, h1, h2, hm, hlk, hsc] at h

/-- Fresh record with an empty transcript used in the C3 witness. -/
def c3State : TState := mkInitialState "student-3" "topic-3" 10

theorem c3_zero_student_turns_no_oracle_witness :
    studCount c3State.messages = 0 ∧
    infer_understanding .failure c3State =
      (⟨c3State.understanding_level, c3State.understanding_confidence,
        c3State.understanding_evidence, false⟩, false) :=
  ⟨rfl, c3_zero_student_turns_no_oracle.1 .failure c3State rfl⟩

/-- C6: whenever the oracle response carries a level that is not an integer in
the range 1..5 (under Python semantics, where isinstance counts bools as ints
valued 0 and 1: anything else — null, a missing key, a float, a string, an
out-of-range integer such as 7 — is invalid), the resulting understanding
level is the previous estimate's level when one exists and 3 otherwise. This
holds on the normal validation path and also when the turn later falls into
the except branch: both fall back to previous-or-3. -/
theorem c6_invalid_level_falls_back (s : TState) (resp : OracleResp)
    (hstu : 1 ≤ studCount s.messages)
    (hlvl : ¬ (resp.level.isPyInt = true ∧ 1 ≤ resp.level.asInt ∧ resp.level.asInt ≤ 5)) :
    (infer_understanding (.success resp) s).1.understanding_level
      = some (s.understanding_level.getD 3) := by
  have h0 : ¬ studCount s.messages = 0 := by omega
  have hv : levelValid resp.level = false := by
    cases hx : levelValid resp.level
    · rfl
    · exact absurd
        (by simpa [levelValid, Bool.and_eq_true, decide_eq_true_eq, and_assoc] using hx) hlvl
  simp only [infer_understanding, h0, if_false, ite_false]
  split
  · rename_i u hu
    simp only [tryUpdate, hv, Bool.false_eq_true, if_false, ite_false] at hu
    split at hu
    · cases hu
      rfl
    · split at hu
      · cases hu
      · cases hu
        rfl
  · simp [fallbackUpdate]

/-- Record with a prior estimate used in the C6 witness; the oracle answers
with the out-of-range level 7, and the stored previous level 2 is kept. -/
def c6State : TState :=
  { mkInitialState "student-4" "topic-4" 10 with
    messages := [⟨"tutor", "hi"⟩, ⟨"student", "hello"⟩],
    understanding_level := some 2 }

theorem c6_invalid_level_falls_back_witness :
    1 ≤ studCount c6State.messages ∧
    ¬ ((JsonVal.int 7).isPyInt = true ∧ 1 ≤ (JsonVal.int 7).asInt ∧ (JsonVal.int 7).asInt ≤ 5) ∧
    (infer_understanding (.success ⟨.int 7, .null, .str "?", .bool false⟩) c6State).1.understanding_level
      = some (c6State.understanding_level.getD 3) :=
  ⟨by decide, by decide,
   c6_invalid_level_falls_back c6State ⟨.int 7, .null, .str "?", .bool false⟩
     (by decide) (by decide)⟩

/-- C7: when the oracle chain raises and the record has no previous
understanding level, infer_understanding returns level 3 with should_lock
false, and — when no prior confidence exists either, which is the only
reachable shape of a no-prior-estimate record — confidence 0.3. The function
is total, so the failure is never propagated to the caller. -/
theorem c7_oracle_failure_no_prior (s : TState)
    (hstu : 1 ≤ studCount s.messages)
    (hlvl : s.understanding_level = none) :
    (infer_understanding .failure s).1.understanding_level = some 3 ∧
    (infer_understanding .failure s).1.should_lock = false ∧
    (s.understanding_confidence = none →
      (infer_understanding .failure s).1.understanding_confidence = some (3/10)) := by
  have h0 : ¬ studCount s.messages = 0 := by omega
  refine ⟨?_, ?_, ?_⟩
  · simp [infer_understanding, h0, fallbackUpdate, hlvl]
  · simp [infer_understanding, h0, fallbackUpdate, hlvl]
  · intro hc
    simp [infer_understanding, h0, fallbackUpdate, hc]

/-- Fresh record holding one student turn used in the C7 witness. -/
def c7State : TState :=
  { mkInitialState "student-8" "topic-8" 10 with
    messages := [⟨"tutor", "hi"⟩, ⟨"student", "hello"⟩] }

theorem c7_oracle_failure_no_prior_witness :
    1 ≤ studCount c7State.messages ∧ c7State.understanding_level = none ∧
    ((infer_understanding .failure c7State).1.understanding_level = some 3 ∧
     (infer_understanding .failure c7State).1.should_lock = false ∧
     (c7State.understanding_confidence = none →
       (infer_understanding .failure c7State).1.understanding_confidence = some (3/10))) :=
  ⟨by decide, rfl, c7_oracle_failure_no_prior c7State (by decide) rfl⟩

/-- Record of a fresh conversation after its first exchange, with the stored
understanding_confidence still None, used as the C8 failing input. -/
def c8State : TState :=
  { mkInitialState "student-9" "topic-9" 10 with
    messages := [⟨"tutor", "What do you know about fractions?"⟩, ⟨"student", "Not much."⟩] }

/-- Oracle response whose confidence field is invalid (a string). -/
def c8Resp : OracleResp := ⟨.int 2, .str "high", .str "said not much", .bool false⟩

/-- C8 (code evaluated at the failing input): with no previous estimate, an
invalid oracle confidence yields a stored confidence of None, not the 0.5 the
spec requires. previous_confidence = state.get("understanding_confidence", 0.5)
returns the present-but-None value, so the 0.5 default is unreachable for
records built by start_tutoring, which always store the key explicitly as
None; the level from the same response is validated and stored normally. -/
theorem c8_confidence_default_unreachable :
    (infer_understanding (.success c8Resp) c8State).1.understanding_confidence = none ∧
    (infer_understanding (.success c8Resp) c8State).1.understanding_level = some 2 :=
  ⟨rfl, rfl⟩

/-- Conversation record already present under the id "conv-1" in the C9
counterexample store. -/
def c9Old : TState :=
  { mkInitialState "student-1" "topic-1" 10 with
    messages := [⟨"tutor", "hi"⟩, ⟨"student", "hello"⟩], turn_count := 3 }

/-- Store already holding "conv-1" for the C9 counterexample. -/
def c9Store : Store := [("conv-1", c9Old)]

/-- C9 (counterexample): creating a conversation under an id that the store
already holds does not fail — start_tutoring has no presence check — and the
existing record is NOT left unchanged: it is overwritten by the fresh initial
record. -/
theorem c9_counterexample :
    storeGet (start_tutoring c9Store "conv-1" "student-2" "topic-2" 10) "conv-1" ≠ some c9Old ∧
    storeGet (start_tutoring c9Store "conv-1" "student-2" "topic-2" 10) "conv-1"
      = some (mkInitialState "student-2" "topic-2" 10) := by
  decide

theorem storeGet_storeSet_self (st : Store) (k : String) (v : TState) :
    storeGet (storeSet st k v) k = some v := by
  induction st with
  | nil => simp [storeSet, storeGet]
  | cons kv rest ih =>
    by_cases h : kv.1 == k
    · simp [storeSet, storeGet, h]
    · simp [storeSet, storeGet, h, ih]

theorem storeGet_storeSet_other (st : Store) (k q : String) (v : TState)
    (h : ¬ q = k) :
    storeGet (storeSet st k v) q = storeGet st q := by
  have hkq : (k == q) = false := by
    simp only [beq_eq_false_iff_ne, ne_eq]
    exact fun hh => h hh.symm
  induction st with
  | nil => simp [storeSet, storeGet, hkq]
  | cons kv rest ih =>
    by_cases hk : kv.1 == k
    · have hk' : kv.1 = k := by simpa using hk
      simp [storeSet, storeGet, hk, hkq, hk']
    · simp [storeSet, storeGet, hk, ih]

/-- C9 (amended): creating a conversation whose id is already present does not
fail and does not preserve the old record: the store ends up holding the fresh
initial record under that id (last write wins), while records under every
other id are untouched. -/
theorem c9_create_overwrites (store : Store) (cid sid tid : String) (mt : Nat) :
    storeGet (start_tutoring store cid sid tid mt) cid = some (mkInitialState sid tid mt) ∧
    (∀ k : String, ¬ k = cid →
      storeGet (start_tutoring store cid sid tid mt) k = storeGet store k) := by
  constructor
  · exact storeGet_storeSet_self store cid (mkInitialState sid tid mt)
  · intro k hk
    exact storeGet_storeSet_other store cid k (mkInitialState sid tid mt) hk

theorem c9_create_overwrites_witness :
    storeGet (start_tutoring c9Store "conv-1" "student-2" "topic-2" 10) "conv-1"
      = some (mkInitialState "student-2" "topic-2" 10) ∧
    ¬ "conv-9" = "conv-1" ∧
    storeGet (start_tutoring c9Store "conv-1" "student-2" "topic-2" 10) "conv-9"
      = storeGet c9Store "conv-9" :=
  ⟨(c9_create_overwrites c9Store "conv-1" "student-2" "topic-2" 10).1,
   by decide,
   (c9_create_overwrites c9Store "conv-1" "student-2" "topic-2" 10).2 "conv-9" (by decide)⟩

/-- C10: teaching-style selection is total and defaults to the level-3 profile
on every value that is not one of the keys 1..5 — the unset level (None) and
any out-of-range integer alike — so generate_tutoring always receives a style
and never fails on an invalid level. -/
theorem c10_style_total_default (l : Option Int)
    (h : l ≠ some 1 ∧ l ≠ some 2 ∧ l ≠ some 3 ∧ l ≠ some 4 ∧ l ≠ some 5) :
    get_teaching_style_guidance l = teachingStyleLevel3 := by
  obtain ⟨h1, h2, h3, h4, h5⟩ := h
  simp [get_teaching_style_guidance, TEACHING_STYLE_GUIDANCE, h1, h2, h3, h4, h5]

theorem c10_style_total_default_witness :
    ((some 7 : Option Int) ≠ some 1 ∧ (some 7 : Option Int) ≠ some 2 ∧
     (some 7 : Option Int) ≠ some 3 ∧ (some 7 : Option Int) ≠ some 4 ∧
     (some 7 : Option Int) ≠ some 5) ∧
    get_teaching_style_guidance (some 7) = teachingStyleLevel3 :=
  ⟨by decide, c10_style_total_default (some 7) (by decide)⟩
